import Mathlib

/-!
Verification of the JobFinder Pro core (src/main.py) against its design
specification.  The Python code is shallowly embedded: raw API payloads are
modelled as association lists of values nested to the depth the code actually
inspects, the SQLite tables as Lean lists of rows, and `datetime` values as
natural-number day / time indices.  Fallible Python operations (attribute
errors, key errors, transport errors) are modelled with `Except String`.
-/

/-- A JSON / Python atomic value as it appears inside an API record:
a string, a number, or `null` (Python `None`). -/
inductive Atom where
  | s (v : String)
  | n (v : Int)
  | null
deriving DecidableEq

/-- A value stored under a top-level key of a raw API hit.  The code
(`Job.from_api`, main.py lines 98-113) inspects raw hits at most two levels
deep, so nested objects are modelled as association lists of atoms. -/
inductive PyVal where
  | atom (a : Atom)
  | dict (fields : List (String × Atom))
  | list (elems : List Atom)
deriving DecidableEq

/-- A raw API hit: a Python dict mapping string keys to values. -/
abbrev RawHit := List (String × PyVal)

/-- Shorthand for a string-valued field. -/
def pstr (s : String) : PyVal := PyVal.atom (Atom.s s)

/-- Python `hit.get(key, default)` on a dict: total, returns the default when
the key is absent (even when the stored value is `None`, the stored value is
returned). -/
def dictGet (hit : RawHit) (key : String) (dflt : PyVal) : PyVal :=
  (hit.lookup key).getD dflt

/-- Python `v.get(key, default)` on an arbitrary value: succeeds only when
`v` is a dict; on a string, number, `None` or list it raises
`AttributeError` (those objects have no `.get`). -/
def PyVal.get (v : PyVal) (key : String) (dflt : Atom) : Except String Atom :=
  match v with
  | .dict fields => .ok ((fields.lookup key).getD dflt)
  | _ => .error "AttributeError: object has no attribute get"

/-- The `Job` dataclass (main.py lines 80-96).  Field values are whatever the
raw payload held, hence `PyVal`; the dataclass declares string defaults for
the trailing five fields. -/
structure Job where
  id : PyVal
  title : PyVal
  company : PyVal
  location : PyVal
  url : PyVal
  published_date : PyVal
  deadline : PyVal := pstr ""
  description : PyVal := pstr ""
  salary : PyVal := pstr ""
  employment_type : PyVal := pstr ""
  working_hours : PyVal := pstr ""
deriving DecidableEq

/-- `Job.from_api` (main.py lines 98-113): builds a `Job` from a raw hit.
Top-level extractions use `dict.get` with a default; the five nested
extractions first fetch the container with default `{}` and then call `.get`
on it, which raises when the container is present but not a dict.  The
argument expressions are evaluated in the dataclass-argument order, so the
first failing nested extraction determines the raised error. -/
def Job.from_api (hit : RawHit) : Except String Job := do
  let id := dictGet hit "id" (pstr "")
  let title := dictGet hit "headline" (pstr "Utan titel")
  let company ← (dictGet hit "employer" (.dict [])).get "name"
      (.s "Ok√§nd arbetsgivare")
  let location ← (dictGet hit "workplace_address" (.dict [])).get "municipality"
      (.s "Plats ej angiven")
  let url := dictGet hit "webpage_url" (pstr "")
  let published_date := dictGet hit "publication_date" (pstr "")
  let deadline := dictGet hit "application_deadline" (pstr "")
  let description ← (dictGet hit "description" (.dict [])).get "text" (.s "")
  let salary := dictGet hit "salary_description" (pstr "")
  let employment_type ← (dictGet hit "employment_type" (.dict [])).get "label" (.s "")
  let working_hours ← (dictGet hit "working_hours_type" (.dict [])).get "label" (.s "")
  .ok { id := id, title := title, company := .atom company,
        location := .atom location, url := url,
        published_date := published_date, deadline := deadline,
        description := .atom description, salary := salary,
        employment_type := .atom employment_type,
        working_hours := .atom working_hours }

/-- The five top-level keys on which `from_api` performs a nested `.get`. -/
def nestedKeys : List String :=
  ["employer", "workplace_address", "description", "employment_type",
   "working_hours_type"]

/-- A stored value supports `.get` iff it is a dict; an absent key is also
safe because the chained call then operates on the `{}` default. -/
def isDictOrAbsent : Option PyVal → Bool
  | Option.none => true
  | some (.dict _) => true
  | some _ => false

/-- A raw hit on which every nested container is either absent or an object,
i.e. the missingness covered by the spec is key absence. -/
def nestedOk (hit : RawHit) : Bool :=
  nestedKeys.all (fun k => isDictOrAbsent (hit.lookup k))

/-- The nested field extraction performed by `from_api` when the container is
absent or a dict: look the container up (defaulting to `{}`), then look the
nested key up (defaulting to the given placeholder). -/
def nfield (hit : RawHit) (k1 k2 : String) (dflt : Atom) : Atom :=
  match dictGet hit k1 (.dict []) with
  | .dict fields => (fields.lookup k2).getD dflt
  | _ => dflt

/-- The `JobStatus` enum (main.py lines 66-73). -/
inductive JobStatus where
  | new
  | saved
  | applied
  | interview
  | rejected
  | accepted
deriving DecidableEq

/-- The string value of each enum member. -/
def JobStatus.value : JobStatus → String
  | .new => "new"
  | .saved => "saved"
  | .applied => "applied"
  | .interview => "interview"
  | .rejected => "rejected"
  | .accepted => "accepted"

/-- `SearchQuery` (main.py lines 116-126): one search action.  The creation
timestamp is modelled as a natural number. -/
structure SearchQuery where
  query : String
  locations : List String
  filters : List (String × String)
  timestamp : Nat
deriving DecidableEq

/-- `Job.to_dict` (main.py line 95): `asdict` over the dataclass, i.e. the
dict carrying all eleven fields.  `save_job` serializes this dict with
`json.dumps`; since serialization is lossless on these values, the stored
payload is modelled as the dict itself. -/
def Job.to_dict (j : Job) : List (String × PyVal) :=
  [("id", j.id), ("title", j.title), ("company", j.company),
   ("location", j.location), ("url", j.url),
   ("published_date", j.published_date), ("deadline", j.deadline),
   ("description", j.description), ("salary", j.salary),
   ("employment_type", j.employment_type), ("working_hours", j.working_hours)]

/-- The parameter names accepted by the `Job` dataclass constructor. -/
def jobFieldNames : List String :=
  ["id", "title", "company", "location", "url", "published_date", "deadline",
   "description", "salary", "employment_type", "working_hours"]

/-- `Job(**d)` as performed by `get_saved_jobs` on a deserialized payload:
raises `TypeError` on an unexpected keyword or when a field without a
dataclass default is missing; missing optional fields take the dataclass
default `""`. -/
def Job.of_dict (d : List (String × PyVal)) : Except String Job :=
  if d.all (fun kv => jobFieldNames.contains kv.1) then
    match d.lookup "id", d.lookup "title", d.lookup "company",
          d.lookup "location", d.lookup "url", d.lookup "published_date" with
    | some id, some title, some company, some location, some url, some pd =>
        .ok { id := id, title := title, company := company,
              location := location, url := url, published_date := pd,
              deadline := (d.lookup "deadline").getD (pstr ""),
              description := (d.lookup "description").getD (pstr ""),
              salary := (d.lookup "salary").getD (pstr ""),
              employment_type := (d.lookup "employment_type").getD (pstr ""),
              working_hours := (d.lookup "working_hours").getD (pstr "") }
    | _, _, _, _, _, _ => .error "TypeError: missing required argument"
  else .error "TypeError: unexpected keyword argument"

/-- A row of the `search_history` table (main.py lines 147-155): the
`locations` and `filters` columns hold `json.dumps` of the respective
values, modelled by the values themselves; the `timestamp` column defaults
to the insertion time. -/
structure HistoryRow where
  query : String
  locations : List String
  filters : List (String × String)
  timestamp : Nat
deriving DecidableEq

/-- A row of the `saved_jobs` table (main.py lines 158-170): denormalized
display columns next to the serialized `data` payload; `saved_date` defaults
to the insertion time. -/
structure SavedRow where
  job_id : PyVal
  title : PyVal
  company : PyVal
  location : PyVal
  url : PyVal
  status : String
  notes : String
  saved_date : Nat
  data : List (String × PyVal)
deriving DecidableEq

/-- The durable state owned by `DatabaseManager`: the two tables the core
operations touch (the `watched_searches` table has no operations). -/
structure DbState where
  search_history : List HistoryRow
  saved_jobs : List SavedRow
deriving DecidableEq

/-- `ORDER BY saved_date DESC` as a relation on saved rows. -/
def savedAfter (a b : SavedRow) : Prop := b.saved_date ≤ a.saved_date

instance : DecidableRel savedAfter := fun _ _ => Nat.decLe _ _

instance : IsTotal SavedRow savedAfter :=
  ⟨fun a b => Nat.le_total b.saved_date a.saved_date⟩

instance : IsTrans SavedRow savedAfter :=
  ⟨fun _ _ _ h1 h2 => Nat.le_trans h2 h1⟩

/-- The projection selected by `get_search_history`:
`SELECT DISTINCT query, locations, timestamp`. -/
structure HistoryEntry where
  query : String
  locations : List String
  timestamp : Nat
deriving DecidableEq

/-- The selected triple of a stored row. -/
def mkEntry (r : HistoryRow) : HistoryEntry :=
  { query := r.query, locations := r.locations, timestamp := r.timestamp }

/-- `ORDER BY timestamp DESC` as a relation on selected history entries. -/
def histAfter (a b : HistoryEntry) : Prop := b.timestamp ≤ a.timestamp

instance : DecidableRel histAfter := fun _ _ => Nat.decLe _ _

instance : IsTotal HistoryEntry histAfter :=
  ⟨fun a b => Nat.le_total b.timestamp a.timestamp⟩

instance : IsTrans HistoryEntry histAfter :=
  ⟨fun _ _ _ h1 h2 => Nat.le_trans h2 h1⟩

/-- `DatabaseManager.save_search` (main.py lines 189-197): appends one row;
`timestamp` takes the column default, the insertion time. -/
def DatabaseManager.save_search (db : DbState) (q : SearchQuery) : DbState :=
  { db with search_history := db.search_history ++
      [{ query := q.query, locations := q.locations, filters := q.filters,
         timestamp := q.timestamp }] }

/-- `DatabaseManager.get_search_history` (main.py lines 199-217):
`SELECT DISTINCT query, locations, timestamp FROM search_history
ORDER BY timestamp DESC LIMIT ?`, rows then parsed back into entries. -/
def DatabaseManager.get_search_history (db : DbState) (limit : Nat := 50) :
    List HistoryEntry :=
  (((db.search_history.map mkEntry).dedup).insertionSort histAfter).take limit

/-- `DatabaseManager.save_job` (main.py lines 219-229):
`INSERT OR REPLACE INTO saved_jobs` keyed by `job_id` — any existing row
with the same key is replaced; the new row carries the denormalized display
columns, the status value, the notes, the insertion time (column default)
and the serialized payload `json.dumps(job.to_dict())`. -/
def DatabaseManager.save_job (db : DbState) (job : Job) (now : Nat)
    (status : JobStatus := .saved) (notes : String := "") : DbState :=
  { db with saved_jobs :=
      db.saved_jobs.filter (fun r => r.job_id != job.id) ++
      [{ job_id := job.id, title := job.title, company := job.company,
         location := job.location, url := job.url, status := status.value,
         notes := notes, saved_date := now, data := job.to_dict }] }

/-- A Python list comprehension whose element expression may raise:
elements are produced left to right and the first failure aborts the
whole comprehension. -/
def mapExcept (f : α → Except String β) : List α → Except String (List β)
  | [] => .ok []
  | a :: l => do
    let b ← f a
    let bs ← mapExcept f l
    .ok (b :: bs)

/-- `DatabaseManager.get_saved_jobs` (main.py lines 231-248):
`SELECT data FROM saved_jobs [WHERE status = ?] ORDER BY saved_date DESC`,
each payload deserialized and fed to the `Job` constructor; a payload the
constructor rejects raises out of the list comprehension. -/
def DatabaseManager.get_saved_jobs (db : DbState)
    (status : Option JobStatus := none) : Except String (List Job) :=
  let rows : List SavedRow := match status with
    | some s => db.saved_jobs.filter (fun r => r.status == s.value)
    | none => db.saved_jobs
  mapExcept (fun r => Job.of_dict r.data) (rows.insertionSort savedAfter)

/-- `DatabaseManager.delete_job` (main.py lines 250-255):
`DELETE FROM saved_jobs WHERE job_id = ?`. -/
def DatabaseManager.delete_job (db : DbState) (job_id : PyVal) : DbState :=
  { db with saved_jobs := db.saved_jobs.filter (fun r => r.job_id != job_id) }

/-- A saved row is coherent when its payload deserializes to a job whose id
matches the row key — true of every row ever written by `save_job`. -/
def wfSavedRow (r : SavedRow) : Prop :=
  ∃ jb, Job.of_dict r.data = .ok jb ∧ jb.id = r.job_id

/-- A database whose saved rows are all coherent. -/
def wfSaved (db : DbState) : Prop := ∀ r ∈ db.saved_jobs, wfSavedRow r

/-- Configuration constants used by the core (main.py lines 29-63). -/
def Config.MAX_RESULTS : Nat := 100

/-- Base URL of the provider endpoint. -/
def Config.API_BASE_URL : String := "https://jobsearch.api.jobtechdev.se/search"

/-- Formatting `strftime` applies to a date: dates are modelled as day
indices and this is their injective rendering standing in for YYYY-MM-DD. -/
def dateStr (day : Nat) : String := toString day

/-- Embedding of `JobAPIClient._build_filter_params` (main.py lines
322-344).  The working-hours branch uses `filters.get`, so an absent key
falls through; the recency branch guards with `filters.get('publicerad')
!= 'alla'` but then reads `filters['publicerad']`, which raises `KeyError`
when the key is absent. -/
def JobAPIClient.build_filter_params (filters : List (String × String))
    (today : Nat) : Except String (List (String × String)) :=
  let params : List (String × String) :=
    if filters.lookup "omfattning" == some "heltid" then
      [("working-hours-type", "heltid")]
    else if filters.lookup "omfattning" == some "deltid" then
      [("working-hours-type", "deltid")]
    else []
  if filters.lookup "publicerad" != some "alla" then
    match filters.lookup "publicerad" with
    | Option.none => .error "KeyError: publicerad"
    | some period =>
      if period == "idag" then
        .ok (params ++ [("published-after", dateStr today)])
      else if period == "7dagar" then
        .ok (params ++ [("published-after", dateStr (today - 7))])
      else if period == "30dagar" then
        .ok (params ++ [("published-after", dateStr (today - 30))])
      else .ok params
  else .ok params

/-- Python `limit or Config.MAX_RESULTS`: `None` and `0` are both falsy. -/
def pyOrNat (limit : Option Nat) (dflt : Nat) : Nat :=
  match limit with
  | Option.none => dflt
  | some 0 => dflt
  | some n => n

/-- One outbound HTTP GET. -/
structure Request where
  url : String
  params : List (String × String)
deriving DecidableEq

/-- Embedding of `JobAPIClient.search` (main.py lines 275-320) up to the
single `session.get`: builds the parameter dict — `q` and `limit` always,
`municipality` as the comma-join of a non-empty location list, plus the
translated filters — and issues exactly one GET carrying it.  A `KeyError`
from filter translation propagates before any request is made; the network
outcome of the request itself is supplied externally (see `WorkerEnv`). -/
def JobAPIClient.search (query : String) (locations : List String)
    (filters : List (String × String)) (limit : Option Nat) (today : Nat) :
    Except String Request := do
  let params := [("q", query),
                 ("limit", toString (pyOrNat limit Config.MAX_RESULTS))]
  let params := if locations.isEmpty then params
    else params ++ [("municipality", String.intercalate "," locations)]
  let params ← if filters.isEmpty then pure params
    else do
      let fp ← JobAPIClient.build_filter_params filters today
      pure (params ++ fp)
  .ok { url := Config.API_BASE_URL, params := params }

/-- A value stored under a top-level key of the parsed response envelope:
the `hits` key holds an array of raw objects, the `total` key an object of
atoms; other shapes the worker may encounter are atoms. -/
inductive TopVal where
  | atom (a : Atom)
  | dict (fields : List (String × Atom))
  | list (elems : List RawHit)
deriving DecidableEq

/-- Python `result.get(key, default)` on the parsed response dict. -/
def topGet (body : List (String × TopVal)) (key : String) (dflt : TopVal) :
    TopVal :=
  (body.lookup key).getD dflt

/-- Python `v.get(key, default)` on a value taken from the response:
raises `AttributeError` unless the value is a dict. -/
def TopVal.get (v : TopVal) (key : String) (dflt : Atom) :
    Except String Atom :=
  match v with
  | .dict fields => .ok ((fields.lookup key).getD dflt)
  | _ => .error "AttributeError: object has no attribute get"

/-- Iteration of the `hits` value by the conversion comprehension: a JSON
array yields its raw objects; a present non-array value makes the
comprehension raise, modelled uniformly as a `TypeError` (iterating a dict
would feed its string keys to `from_api`, which raises just the same). -/
def asHits : TopVal → Except String (List RawHit)
  | .list elems => .ok elems
  | _ => .error "TypeError: object is not iterable"

/-- One observable step of a search run, in the order the worker performs
them: the history INSERT, the outbound GET, the scheduled UI update with
results or with an error text, and the scheduled re-enabling of the search
button. -/
inductive Event where
  | historyWrite
  | apiCall (req : Request)
  | displayResults (jobs : List Job) (total : Atom)
  | displayError (msg : String)
  | enableSearchButton
deriving DecidableEq

/-- Recognizes the outbound GET in a trace. -/
def isApiCall : Event → Bool
  | .apiCall _ => true
  | _ => false

/-- Recognizes the error notification in a trace. -/
def isErrorEvent : Event → Bool
  | .displayError _ => true
  | _ => false

/-- Outcomes of the two external effects of one search run: the history
INSERT (storage may be unavailable) and the network exchange (transport
failure, non-2xx or a parse failure, versus a parsed JSON body). -/
structure WorkerEnv where
  saveResult : Except String Unit
  apiResult : Except String (List (String × TopVal))

/-- The mutable orchestrator state a search run touches: the held job list
`self.all_jobs` and whether the search button accepts a new search. -/
structure OrchestratorState where
  all_jobs : List Job
  searchEnabled : Bool
deriving DecidableEq

/-- The post-response steps of `_search_worker` (main.py lines 839-845) in
source order: `hits = result.get('hits', [])`, then
`total = result.get('total', {}).get('value', 0)` — which may raise — then
the conversion `[Job.from_api(hit) for hit in hits]`, which iterates `hits`
and may raise per element. -/
def extractJobs (body : List (String × TopVal)) :
    Except String (List Job × Atom) := do
  let hitsVal := topGet body "hits" (.list [])
  let total ← (topGet body "total" (.dict [])).get "value" (.n 0)
  let hits ← asHits hitsVal
  let jobs ← mapExcept Job.from_api hits
  .ok (jobs, total)

/-- Embedding of `JobFinderPro._search_worker` (main.py lines 832-857) as a
trace of events plus the resulting state.  The `try` body runs the history
INSERT, then the API call, then extraction and conversion, then assigns
`self.all_jobs` and schedules the results display; any exception skips to
the `except` handler, which schedules the error display; the `finally`
block unconditionally schedules the button re-enable. -/
def JobFinderPro.search_worker (query : String) (locations : List String)
    (filters : List (String × String)) (today : Nat) (env : WorkerEnv)
    (st : OrchestratorState) : List Event × OrchestratorState :=
  match env.saveResult with
  | .error e =>
      ([.historyWrite, .displayError e, .enableSearchButton],
       { st with searchEnabled := true })
  | .ok _ =>
    match JobAPIClient.search query locations filters none today with
    | .error e =>
        ([.historyWrite, .displayError e, .enableSearchButton],
         { st with searchEnabled := true })
    | .ok req =>
      match env.apiResult with
      | .error e =>
          ([.historyWrite, .apiCall req, .displayError e, .enableSearchButton],
           { st with searchEnabled := true })
      | .ok body =>
        match extractJobs body with
        | .error e =>
            ([.historyWrite, .apiCall req, .displayError e,
              .enableSearchButton],
             { st with searchEnabled := true })
        | .ok (jobs, total) =>
            ([.historyWrite, .apiCall req, .displayResults jobs total,
              .enableSearchButton],
             { st with all_jobs := jobs, searchEnabled := true })

/-- Whether the run raises anywhere in the `try` body: the history write,
the request construction, the exchange, or extraction and conversion. -/
def runFails (query : String) (locations : List String)
    (filters : List (String × String)) (today : Nat) (env : WorkerEnv) :
    Bool :=
  match env.saveResult with
  | .error _ => true
  | .ok _ =>
    match JobAPIClient.search query locations filters none today with
    | .error _ => true
    | .ok _ =>
      match env.apiResult with
      | .error _ => true
      | .ok body => !(extractJobs body).isOk

/-- Python `str.strip()`: removes leading and trailing whitespace. -/
def pyStrip (s : String) : String :=
  String.mk (((s.data.dropWhile Char.isWhitespace).reverse.dropWhile
    Char.isWhitespace).reverse)

/-- Embedding of `JobFinderPro.start_search` (main.py lines 811-830)
sequentially composed with the worker it spawns: a query that strips to the
empty string logs a warning and returns before any state change and before
the worker thread is created; otherwise the search button is disabled and
the worker runs. -/
def JobFinderPro.start_search (st : OrchestratorState) (rawQuery : String)
    (locations : List String) (filters : List (String × String))
    (today : Nat) (env : WorkerEnv) : List Event × OrchestratorState :=
  let query := pyStrip rawQuery
  if query = "" then ([], st)
  else JobFinderPro.search_worker query locations filters today env
    { st with searchEnabled := false }

lemma getD_dict (o : Option PyVal) (h : isDictOrAbsent o = true) :
    ∃ fields, o.getD (PyVal.dict []) = .dict fields := by
  cases o with
  | none => exact ⟨[], rfl⟩
  | some v => cases v with
    | dict fields => exact ⟨fields, rfl⟩
    | atom a => simp [isDictOrAbsent] at h
    | list l => simp [isDictOrAbsent] at h

lemma from_api_eval (hit : RawHit) (h : nestedOk hit = true) :
    Job.from_api hit = .ok {
      id := dictGet hit "id" (pstr ""),
      title := dictGet hit "headline" (pstr "Utan titel"),
      company := .atom (nfield hit "employer" "name" (.s "Ok√§nd arbetsgivare")),
      location := .atom (nfield hit "workplace_address" "municipality"
        (.s "Plats ej angiven")),
      url := dictGet hit "webpage_url" (pstr ""),
      published_date := dictGet hit "publication_date" (pstr ""),
      deadline := dictGet hit "application_deadline" (pstr ""),
      description := .atom (nfield hit "description" "text" (.s "")),
      salary := dictGet hit "salary_description" (pstr ""),
      employment_type := .atom (nfield hit "employment_type" "label" (.s "")),
      working_hours := .atom (nfield hit "working_hours_type" "label" (.s "")) } := by
  simp only [nestedOk, nestedKeys, List.all_cons, List.all_nil, Bool.and_eq_true,
    and_true] at h
  obtain ⟨h1, h2, h3, h4, h5⟩ := h
  obtain ⟨f1, e1⟩ := getD_dict _ h1
  obtain ⟨f2, e2⟩ := getD_dict _ h2
  obtain ⟨f3, e3⟩ := getD_dict _ h3
  obtain ⟨f4, e4⟩ := getD_dict _ h4
  obtain ⟨f5, e5⟩ := getD_dict _ h5
  simp [Job.from_api, nfield, dictGet, e1, e2, e3, e4, e5, PyVal.get,
    Bind.bind, Except.bind]

/-- Claim C1: on every raw record whose nested containers are absent or
objects, `Job.from_api` returns a `Job` without raising, and each field
extraction independently falls back to its default when its key or nested
key is absent: the placeholder strings for title, company and location, and
the empty string for the remaining optional fields. -/
theorem claim_C1 (hit : RawHit) (h : nestedOk hit = true) :
    (Job.from_api hit).isOk = true ∧
    (hit.lookup "id" = none →
      (Job.from_api hit).map Job.id = .ok (pstr "")) ∧
    (hit.lookup "headline" = none →
      (Job.from_api hit).map Job.title = .ok (pstr "Utan titel")) ∧
    (hit.lookup "employer" = none →
      (Job.from_api hit).map Job.company = .ok (pstr "Ok√§nd arbetsgivare")) ∧
    (∀ f, hit.lookup "employer" = some (.dict f) → f.lookup "name" = none →
      (Job.from_api hit).map Job.company = .ok (pstr "Ok√§nd arbetsgivare")) ∧
    (hit.lookup "workplace_address" = none →
      (Job.from_api hit).map Job.location = .ok (pstr "Plats ej angiven")) ∧
    (∀ f, hit.lookup "workplace_address" = some (.dict f) →
      f.lookup "municipality" = none →
      (Job.from_api hit).map Job.location = .ok (pstr "Plats ej angiven")) ∧
    (hit.lookup "webpage_url" = none →
      (Job.from_api hit).map Job.url = .ok (pstr "")) ∧
    (hit.lookup "publication_date" = none →
      (Job.from_api hit).map Job.published_date = .ok (pstr "")) ∧
    (hit.lookup "application_deadline" = none →
      (Job.from_api hit).map Job.deadline = .ok (pstr "")) ∧
    (hit.lookup "description" = none →
      (Job.from_api hit).map Job.description = .ok (pstr "")) ∧
    (∀ f, hit.lookup "description" = some (.dict f) → f.lookup "text" = none →
      (Job.from_api hit).map Job.description = .ok (pstr "")) ∧
    (hit.lookup "salary_description" = none →
      (Job.from_api hit).map Job.salary = .ok (pstr "")) ∧
    (hit.lookup "employment_type" = none →
      (Job.from_api hit).map Job.employment_type = .ok (pstr "")) ∧
    (∀ f, hit.lookup "employment_type" = some (.dict f) →
      f.lookup "label" = none →
      (Job.from_api hit).map Job.employment_type = .ok (pstr "")) ∧
    (hit.lookup "working_hours_type" = none →
      (Job.from_api hit).map Job.working_hours = .ok (pstr "")) ∧
    (∀ f, hit.lookup "working_hours_type" = some (.dict f) →
      f.lookup "label" = none →
      (Job.from_api hit).map Job.working_hours = .ok (pstr "")) := by
  have e := from_api_eval hit h
  rw [e]
  refine ⟨rfl, ?_, ?_, ?_, ?_, ?_, ?_, ?_, ?_, ?_, ?_, ?_, ?_, ?_, ?_, ?_, ?_⟩
  · intro hl; simp [Except.map, dictGet, hl, pstr]
  · intro hl; simp [Except.map, dictGet, hl, pstr]
  · intro hl; simp [Except.map, nfield, dictGet, hl, pstr]
  · intro f hf hl; simp [Except.map, nfield, dictGet, hf, hl, pstr]
  · intro hl; simp [Except.map, nfield, dictGet, hl, pstr]
  · intro f hf hl; simp [Except.map, nfield, dictGet, hf, hl, pstr]
  · intro hl; simp [Except.map, dictGet, hl, pstr]
  · intro hl; simp [Except.map, dictGet, hl, pstr]
  · intro hl; simp [Except.map, dictGet, hl, pstr]
  · intro hl; simp [Except.map, nfield, dictGet, hl, pstr]
  · intro f hf hl; simp [Except.map, nfield, dictGet, hf, hl, pstr]
  · intro hl; simp [Except.map, dictGet, hl, pstr]
  · intro hl; simp [Except.map, nfield, dictGet, hl, pstr]
  · intro f hf hl; simp [Except.map, nfield, dictGet, hf, hl, pstr]
  · intro hl; simp [Except.map, nfield, dictGet, hl, pstr]
  · intro f hf hl; simp [Except.map, nfield, dictGet, hf, hl, pstr]

/-- Claim C10: there are raw API records on which `Job.from_api` raises:
when a nested container is present but `null` or not an object (employer
`null`, description `null`, or employment_type a bare string), the nested
lookup fails with an `AttributeError` instead of defaulting. -/
theorem claim_C10 :
    (Job.from_api [("employer", PyVal.atom Atom.null)]).isOk = false ∧
    (Job.from_api [("description", PyVal.atom Atom.null)]).isOk = false ∧
    (Job.from_api [("employment_type", pstr "Vanlig anst√§llning")]).isOk
      = false := by
  refine ⟨rfl, rfl, rfl⟩

/-- The serialization round trip of a saved job is the identity. -/
lemma of_dict_to_dict (j : Job) : Job.of_dict j.to_dict = .ok j := rfl

/-- Decoding a row list in which every row whose key matches `job.id`
decodes to `job` itself and every other row decodes to a job with a
different id: the decode succeeds and filtering the result by `job.id`
yields one copy of `job` per matching row. -/
lemma mapM_decode_filter (job : Job) :
    ∀ rows : List SavedRow,
      (∀ r ∈ rows, ∃ jb, Job.of_dict r.data = .ok jb ∧
          (r.job_id = job.id → jb = job) ∧
          (r.job_id ≠ job.id → jb.id ≠ job.id)) →
      ∃ l, mapExcept (fun r => Job.of_dict r.data) rows = .ok l ∧
        l.filter (fun jb => jb.id == job.id)
          = (rows.filter (fun r => r.job_id == job.id)).map (fun _ => job)
  | [], _ => ⟨[], rfl, rfl⟩
  | r :: rows, h => by
    obtain ⟨jb, hok, hpos, hneg⟩ := h r (by simp)
    obtain ⟨l, hl, hf⟩ :=
      mapM_decode_filter job rows (fun x hx => h x (by simp [hx]))
    refine ⟨jb :: l, ?_, ?_⟩
    · simp [mapExcept, hok, hl, Bind.bind, Except.bind]
    · by_cases hid : r.job_id = job.id
      · have hj : jb = job := hpos hid
        subst hj
        simp [List.filter_cons, hid, hf]
      · have hjb := hneg hid
        simp [List.filter_cons, hid, hjb, hf]

/-- Claim C2: for every coherent database, job, status and notes, saving the
job and then listing the saved jobs with no status filter succeeds, and the
result contains exactly one entry with the job's id — the job itself,
reconstructed from the serialized payload; prior rows under the same key
were overwritten by the keyed `INSERT OR REPLACE`. -/
theorem claim_C2 (db : DbState) (job : Job) (now : Nat) (status : JobStatus)
    (notes : String) (hwf : wfSaved db) :
    (DatabaseManager.get_saved_jobs
        (DatabaseManager.save_job db job now status notes) none).map
      (fun l => l.filter (fun jb => jb.id == job.id)) = .ok [job] := by
  set newRow : SavedRow :=
    { job_id := job.id, title := job.title, company := job.company,
      location := job.location, url := job.url, status := status.value,
      notes := notes, saved_date := now, data := job.to_dict } with hnew
  have hrows : (DatabaseManager.save_job db job now status notes).saved_jobs
      = db.saved_jobs.filter (fun r => r.job_id != job.id) ++ [newRow] := rfl
  set rows := db.saved_jobs.filter (fun r => r.job_id != job.id) ++ [newRow]
    with hrowsdef
  set sorted := rows.insertionSort savedAfter with hsorted
  have hmem : ∀ r ∈ sorted, ∃ jb, Job.of_dict r.data = .ok jb ∧
      (r.job_id = job.id → jb = job) ∧ (r.job_id ≠ job.id → jb.id ≠ job.id) := by
    intro r hr
    have hr2 : r ∈ rows := (List.mem_insertionSort savedAfter).mp hr
    rcases List.mem_append.mp hr2 with hold | hnewm
    · obtain ⟨hin, hne⟩ := List.mem_filter.mp hold
      obtain ⟨jb, hok, hid⟩ := hwf r hin
      have hne2 : r.job_id ≠ job.id := by
        simpa [bne_iff_ne] using hne
      exact ⟨jb, hok, fun hc => absurd hc hne2, fun _ => hid ▸ hne2⟩
    · have hr3 : r = newRow := by simpa using hnewm
      subst hr3
      exact ⟨job, of_dict_to_dict job, fun _ => rfl,
        fun hc => absurd rfl hc⟩
  obtain ⟨l, hl, hf⟩ := mapM_decode_filter job sorted hmem
  have hget : DatabaseManager.get_saved_jobs
      (DatabaseManager.save_job db job now status notes) none
      = mapExcept (fun r => Job.of_dict r.data) sorted := by
    rw [hsorted, hrowsdef]
    rfl
  have hfilter : sorted.filter (fun r => r.job_id == job.id) = [newRow] := by
    have hperm : List.Perm (sorted.filter (fun r => r.job_id == job.id))
        (rows.filter (fun r => r.job_id == job.id)) :=
      (List.perm_insertionSort savedAfter rows).filter _
    have hrf : rows.filter (fun r => r.job_id == job.id) = [newRow] := by
      rw [hrowsdef, List.filter_append]
      have h1 : (db.saved_jobs.filter (fun r => r.job_id != job.id)).filter
          (fun r => r.job_id == job.id) = [] := by
        apply List.filter_eq_nil_iff.mpr
        intro a ha
        have hne := (List.mem_filter.mp ha).2
        simp only [bne_iff_ne, ne_eq] at hne
        simp [hne]
      have h2 : List.filter (fun r => r.job_id == job.id) [newRow]
          = [newRow] := by
        simp [hnew]
      rw [h1, h2, List.nil_append]
    rw [hrf] at hperm
    exact List.perm_singleton.mp hperm
  rw [hget, hl]
  simp only [Except.map]
  rw [hf, hfilter]
  simp

/-- Claim C3: `get_search_history` returns at most `limit` entries, ordered
non-increasing by timestamp, with `DISTINCT` semantics over the
(query, locations, timestamp) triple as stored: the result is
duplicate-free, every entry is the triple of a stored row, and whenever
the distinct triples fit in the limit every stored row's triple — also
one sharing its query text with another row but differing in timestamp or
locations — appears. -/
theorem claim_C3 (db : DbState) (limit : Nat) :
    (DatabaseManager.get_search_history db limit).length ≤ limit ∧
    List.Sorted histAfter (DatabaseManager.get_search_history db limit) ∧
    (DatabaseManager.get_search_history db limit).Nodup ∧
    (∀ e ∈ DatabaseManager.get_search_history db limit,
      e ∈ db.search_history.map mkEntry) ∧
    ((db.search_history.map mkEntry).dedup.length ≤ limit →
      ∀ r ∈ db.search_history,
        mkEntry r ∈ DatabaseManager.get_search_history db limit) := by
  unfold DatabaseManager.get_search_history
  refine ⟨List.length_take_le _ _, ?_, ?_, ?_, ?_⟩
  · exact List.Pairwise.sublist (List.take_sublist _ _)
      (List.sorted_insertionSort histAfter _)
  · exact List.Nodup.sublist (List.take_sublist _ _)
      ((List.perm_insertionSort histAfter _).nodup_iff.mpr
        (List.nodup_dedup _))
  · intro e he
    have h1 := List.take_subset _ _ he
    have h2 := (List.mem_insertionSort histAfter).mp h1
    exact List.dedup_subset _ h2
  · intro hlen r hr
    have hlen2 : (((db.search_history.map mkEntry).dedup).insertionSort
        histAfter).length ≤ limit := by
      rw [List.length_insertionSort]
      exact hlen
    rw [List.take_of_length_le hlen2]
    exact (List.mem_insertionSort histAfter).mpr
      (List.mem_dedup.mpr (List.mem_map_of_mem mkEntry hr))

/-- Claim C8: deleting a saved job by id removes exactly the row with that
id and is a no-op raising no error when no such row exists — the database
is then unchanged, so a subsequent listing is unchanged; rows with other
ids always survive, nothing is ever added, and the history table is never
touched. -/
theorem claim_C8 (db : DbState) (jid : PyVal) :
    ((∀ r ∈ db.saved_jobs, r.job_id ≠ jid) →
      DatabaseManager.delete_job db jid = db) ∧
    ((∀ r ∈ db.saved_jobs, r.job_id ≠ jid) → ∀ s,
      DatabaseManager.get_saved_jobs (DatabaseManager.delete_job db jid) s
        = DatabaseManager.get_saved_jobs db s) ∧
    (∀ r ∈ db.saved_jobs, r.job_id ≠ jid →
      r ∈ (DatabaseManager.delete_job db jid).saved_jobs) ∧
    (∀ r ∈ (DatabaseManager.delete_job db jid).saved_jobs,
      r ∈ db.saved_jobs ∧ r.job_id ≠ jid) ∧
    (DatabaseManager.delete_job db jid).search_history
      = db.search_history := by
  have hid : (∀ r ∈ db.saved_jobs, r.job_id ≠ jid) →
      DatabaseManager.delete_job db jid = db := by
    intro h
    have hfil : db.saved_jobs.filter (fun r => r.job_id != jid)
        = db.saved_jobs :=
      List.filter_eq_self.mpr (fun a ha => by
        simpa [bne_iff_ne] using h a ha)
    simp [DatabaseManager.delete_job, hfil]
  refine ⟨hid, fun h s => by rw [hid h], ?_, ?_, rfl⟩
  · intro r hr hne
    exact List.mem_filter.mpr ⟨hr, by simpa [bne_iff_ne] using hne⟩
  · intro r hr
    obtain ⟨h1, h2⟩ := List.mem_filter.mp hr
    exact ⟨h1, by simpa [bne_iff_ne] using h2⟩

/-- Helper over association lists: a key none of the pairs carries is not
found. -/
lemma lookup_eq_none_of_keys {β : Type} (k : String)
    (l : List (String × β)) (h : ∀ kv ∈ l, kv.1 ≠ k) :
    l.lookup k = none := by
  induction l with
  | nil => rfl
  | cons kv rest ih =>
    have h1 : kv.1 ≠ k := h kv (by simp)
    have h2 : (k == kv.1) = false := by
      simpa [beq_eq_false_iff_ne] using fun hc => h1 hc.symm
    cases kv with
    | mk a b =>
      simp only [List.lookup]
      rw [h2]
      exact ih (fun x hx => h x (by simp [hx]))

/-- When the recency key is present, filter translation succeeds and
produces the working-hours parameters followed only by recency parameters. -/
lemma build_filter_params_eval (filters : List (String × String))
    (today : Nat) (period : String)
    (hper : filters.lookup "publicerad" = some period) :
    ∃ tail : List (String × String),
      (∀ kv ∈ tail, kv.1 = "published-after") ∧
      JobAPIClient.build_filter_params filters today
        = .ok ((if filters.lookup "omfattning" == some "heltid" then
                  [("working-hours-type", "heltid")]
                else if filters.lookup "omfattning" == some "deltid" then
                  [("working-hours-type", "deltid")]
                else []) ++ tail) := by
  unfold JobAPIClient.build_filter_params
  rw [hper]
  by_cases ha : period = "alla"
  · refine ⟨[], by simp, ?_⟩
    simp [ha]
  · have hne : (some period != some "alla") = true := by
      simp [bne_iff_ne, ha]
    rw [if_pos hne]
    by_cases h1 : period = "idag"
    · exact ⟨[("published-after", dateStr today)], by simp, by simp [h1]⟩
    · by_cases h2 : period = "7dagar"
      · exact ⟨[("published-after", dateStr (today - 7))], by simp,
          by simp [h1, h2]⟩
      · by_cases h3 : period = "30dagar"
        · exact ⟨[("published-after", dateStr (today - 30))], by simp,
            by simp [h1, h2, h3]⟩
        · exact ⟨[], by simp, by simp [h1, h2, h3]⟩

/-- Counterexample to claim C4 as stated: on the filter configuration that
sets only the working-hours option to its neutral value — with no
publication-recency key — parameter construction does not complete: it
raises `KeyError` on `filters['publicerad']`. -/
theorem claim_C4_counterexample :
    JobAPIClient.build_filter_params [("omfattning", "alla")] 0
      = .error "KeyError: publicerad" := rfl

/-- Claim C4 (amended): for every filter configuration that carries the
publication-recency key — as every configuration produced by the filter
menu does — construction completes without error, maps `heltid` and
`deltid` to the corresponding provider values, and adds no working-hours
parameter for any other or absent working-hours value; without the recency
key, construction raises `KeyError` (see the counterexample). -/
theorem claim_C4 (filters : List (String × String)) (today : Nat)
    (hp : (filters.lookup "publicerad").isSome = true) :
    (JobAPIClient.build_filter_params filters today).isOk = true ∧
    (filters.lookup "omfattning" = some "heltid" →
      (JobAPIClient.build_filter_params filters today).map
        (fun ps => ps.lookup "working-hours-type") = .ok (some "heltid")) ∧
    (filters.lookup "omfattning" = some "deltid" →
      (JobAPIClient.build_filter_params filters today).map
        (fun ps => ps.lookup "working-hours-type") = .ok (some "deltid")) ∧
    (∀ v, filters.lookup "omfattning" = some v → v ≠ "heltid" →
      v ≠ "deltid" →
      (JobAPIClient.build_filter_params filters today).map
        (fun ps => ps.lookup "working-hours-type") = .ok none) ∧
    (filters.lookup "omfattning" = none →
      (JobAPIClient.build_filter_params filters today).map
        (fun ps => ps.lookup "working-hours-type") = .ok none) := by
  obtain ⟨period, hper⟩ := Option.isSome_iff_exists.mp hp
  obtain ⟨tail, htail, heq⟩ :=
    build_filter_params_eval filters today period hper
  have hnone : tail.lookup "working-hours-type" = none :=
    lookup_eq_none_of_keys _ _ (fun kv hkv => by simp [htail kv hkv])
  rw [heq]
  refine ⟨rfl, ?_, ?_, ?_, ?_⟩
  · intro h
    simp [h, Except.map, List.lookup]
  · intro h
    simp [h, Except.map, List.lookup]
  · intro v hv h1 h2
    simp [hv, h1, h2, Except.map, hnone]
  · intro h
    simp [h, Except.map, hnone]

/-- Claim C5: every search run performs the history write first — it heads
the trace — and when the history write raises, the run goes to Failed
(the error notification is scheduled) and the network call is never
attempted. -/
theorem claim_C5 (query : String) (locations : List String)
    (filters : List (String × String)) (today : Nat) (env : WorkerEnv)
    (st : OrchestratorState) :
    ((JobFinderPro.search_worker query locations filters today env st).1.head?
      = some Event.historyWrite) ∧
    (∀ e, env.saveResult = .error e →
      (JobFinderPro.search_worker query locations filters today env st).1
        = [Event.historyWrite, Event.displayError e,
           Event.enableSearchButton] ∧
      (JobFinderPro.search_worker query locations filters today env
        st).1.countP isApiCall = 0) := by
  constructor
  · unfold JobFinderPro.search_worker
    cases env.saveResult with
    | error e => rfl
    | ok u =>
      cases JobAPIClient.search query locations filters none today with
      | error e => rfl
      | ok req =>
        cases env.apiResult with
        | error e => rfl
        | ok body =>
          cases hx : extractJobs body with
          | error e => simp [hx]
          | ok pr => cases pr with
            | mk jobs total => simp [hx]
  · intro e he
    unfold JobFinderPro.search_worker
    rw [he]
    exact ⟨rfl, by simp [List.countP_cons, isApiCall]⟩

/-- Claim C6: whenever a run fails with any exception — from the history
write, the request construction, the exchange, or extraction and
conversion — the held job list is left exactly as before and the error
notification is in the trace; and on every run, failed or not, the final
trace event re-enables the search trigger and the resulting state has it
enabled. -/
theorem claim_C6 (query : String) (locations : List String)
    (filters : List (String × String)) (today : Nat) (env : WorkerEnv)
    (st : OrchestratorState) :
    ((JobFinderPro.search_worker query locations filters today env
        st).2.searchEnabled = true) ∧
    ((JobFinderPro.search_worker query locations filters today env
        st).1.getLast? = some Event.enableSearchButton) ∧
    (runFails query locations filters today env = true →
      (JobFinderPro.search_worker query locations filters today env
        st).2.all_jobs = st.all_jobs ∧
      (JobFinderPro.search_worker query locations filters today env
        st).1.any isErrorEvent = true) := by
  unfold JobFinderPro.search_worker runFails
  cases env.saveResult with
  | error e => simp [isErrorEvent]
  | ok u =>
    cases JobAPIClient.search query locations filters none today with
    | error e => simp [isErrorEvent]
    | ok req =>
      cases env.apiResult with
      | error e => simp [isErrorEvent]
      | ok body =>
        cases hx : extractJobs body with
        | error e => simp [hx, isErrorEvent]
        | ok pr => cases pr with
          | mk jobs total => simp [hx, Except.isOk, Except.toBool]

/-- Claim C7: a query that is empty (after stripping) is rejected with no
state change at all: no trace event occurs — no history row, no network
call, no notification — no worker is started and the state, including the
held job list and the enabled search trigger, is returned untouched. -/
theorem claim_C7 (st : OrchestratorState) (rawQuery : String)
    (locations : List String) (filters : List (String × String))
    (today : Nat) (env : WorkerEnv) (h : pyStrip rawQuery = "") :
    JobFinderPro.start_search st rawQuery locations filters today env
      = ([], st) := by
  simp [JobFinderPro.start_search, h]

/-- Without the recency key, filter translation raises. -/
lemma build_filter_params_none (filters : List (String × String))
    (today : Nat) (h : filters.lookup "publicerad" = none) :
    JobAPIClient.build_filter_params filters today
      = .error "KeyError: publicerad" := by
  unfold JobAPIClient.build_filter_params
  rw [h]
  rfl

/-- Successful filter translation never produces a municipality parameter. -/
lemma build_filter_params_no_municipality (filters : List (String × String))
    (today : Nat) (ps : List (String × String))
    (h : JobAPIClient.build_filter_params filters today = .ok ps) :
    ps.filter (fun kv => kv.1 == "municipality") = [] := by
  cases hper : filters.lookup "publicerad" with
  | none =>
    rw [build_filter_params_none filters today hper] at h
    exact absurd h (by simp)
  | some period =>
    obtain ⟨tail, htail, heq⟩ :=
      build_filter_params_eval filters today period hper
    rw [heq] at h
    injection h with h2
    subst h2
    rw [List.filter_append]
    have h1 : tail.filter (fun kv => kv.1 == "municipality") = [] :=
      List.filter_eq_nil_iff.mpr (fun kv hkv => by simp [htail kv hkv])
    rw [h1]
    split <;> simp

/-- Claim C9: submitting the query developer with no locations and the
default empty filters builds exactly the parameters q = developer and
limit = 100 — the fixed default maximum — with no municipality key, and the
run issues at most one outbound request, exactly one once the history write
has succeeded; for every non-empty location list the built parameters carry
a single municipality parameter equal to the comma-join of the locations. -/
theorem claim_C9 (today : Nat) (env : WorkerEnv) (st : OrchestratorState) :
    (JobAPIClient.search "developer" [] [] none today
      = .ok { url := Config.API_BASE_URL,
              params := [("q", "developer"), ("limit", "100")] }) ∧
    (([("q", "developer"), ("limit", "100")] : List (String × String)).lookup
      "municipality" = none) ∧
    ((JobFinderPro.search_worker "developer" [] [] today env st).1.countP
      isApiCall ≤ 1) ∧
    (env.saveResult.isOk = true →
      (JobFinderPro.search_worker "developer" [] [] today env st).1.countP
        isApiCall = 1) ∧
    (∀ query locations filters limit req, locations ≠ [] →
      JobAPIClient.search query locations filters limit today = .ok req →
      req.params.filter (fun kv => kv.1 == "municipality")
        = [("municipality", String.intercalate "," locations)]) := by
  have hsearch : JobAPIClient.search "developer" [] [] none today
      = .ok { url := Config.API_BASE_URL,
              params := [("q", "developer"), ("limit", "100")] } := rfl
  have hcount : ∀ hok : env.saveResult.isOk = true,
      (JobFinderPro.search_worker "developer" [] [] today env st).1.countP
        isApiCall = 1 := by
    intro hok
    unfold JobFinderPro.search_worker
    cases hs : env.saveResult with
    | error e => rw [hs] at hok; exact absurd hok (by simp [Except.isOk, Except.toBool])
    | ok u =>
      rw [hsearch]
      cases env.apiResult with
      | error e => simp [List.countP_cons, isApiCall]
      | ok body =>
        cases hx : extractJobs body with
        | error e => simp [hx, List.countP_cons, isApiCall]
        | ok pr => cases pr with
          | mk jobs total => simp [hx, List.countP_cons, isApiCall]
  refine ⟨hsearch, rfl, ?_, hcount, ?_⟩
  · cases hs : env.saveResult with
    | error e =>
      unfold JobFinderPro.search_worker
      rw [hs]
      simp [List.countP_cons, isApiCall]
    | ok u =>
      have h1 := hcount (by rw [hs]; rfl)
      omega
  · intro query locations filters limit req hne hreq
    have hloc : locations.isEmpty = false := by
      cases locations with
      | nil => exact absurd rfl hne
      | cons a l => rfl
    unfold JobAPIClient.search at hreq
    rw [hloc] at hreq
    by_cases hf : filters.isEmpty
    · simp only [hf, if_true, Bind.bind, Except.bind, pure, Except.pure,
        Bool.false_eq_true, if_false, Except.ok.injEq] at hreq
      subst hreq
      simp [List.filter]
    · simp only [hf, Bool.false_eq_true, if_false] at hreq
      cases hbf : JobAPIClient.build_filter_params filters today with
      | error e =>
        rw [hbf] at hreq
        exact absurd hreq (by simp [Bind.bind, Except.bind])
      | ok fp =>
        rw [hbf] at hreq
        simp only [Bind.bind, Except.bind, pure, Except.pure,
          Except.ok.injEq] at hreq
        subst hreq
        have hfp := build_filter_params_no_municipality filters today fp hbf
        simp [List.filter_append, List.filter, hfp]

/-- Witness for claim C1 at the raw record missing every key. -/
theorem claim_C1_witness :
    (Job.from_api []).isOk = true ∧
    (Job.from_api []).map Job.company = .ok (pstr "Ok√§nd arbetsgivare") :=
  ⟨(claim_C1 [] (by decide)).1, (claim_C1 [] (by decide)).2.2.2.1 rfl⟩

/-- Witness for claim C2 at an empty database and a concrete job. -/
theorem claim_C2_witness :
    (DatabaseManager.get_saved_jobs
        (DatabaseManager.save_job ⟨[], []⟩
          { id := pstr "j1", title := pstr "t", company := pstr "c",
            location := pstr "l", url := pstr "u",
            published_date := pstr "2024-01-01" } 5) none).map
      (fun l => l.filter (fun jb => jb.id == pstr "j1"))
      = .ok [{ id := pstr "j1", title := pstr "t", company := pstr "c",
               location := pstr "l", url := pstr "u",
               published_date := pstr "2024-01-01" }] :=
  claim_C2 ⟨[], []⟩
    { id := pstr "j1", title := pstr "t", company := pstr "c",
      location := pstr "l", url := pstr "u",
      published_date := pstr "2024-01-01" } 5 .saved ""
    (fun r hr => absurd hr (List.not_mem_nil r))

/-- Witness for claim C3 at a store holding two rows that share their query
text but differ in timestamp. -/
theorem claim_C3_witness :
    (DatabaseManager.get_search_history
      ⟨[{ query := "dev", locations := [], filters := [], timestamp := 1 },
        { query := "dev", locations := [], filters := [], timestamp := 2 }],
       []⟩ 10).length ≤ 10 :=
  (claim_C3
    ⟨[{ query := "dev", locations := [], filters := [], timestamp := 1 },
      { query := "dev", locations := [], filters := [], timestamp := 2 }],
     []⟩ 10).1

/-- Witness for the amended claim C4 at the neutral configuration the
filter menu produces. -/
theorem claim_C4_witness :
    (JobAPIClient.build_filter_params
        [("omfattning", "alla"), ("publicerad", "alla")] 0).isOk = true ∧
    (JobAPIClient.build_filter_params
        [("omfattning", "alla"), ("publicerad", "alla")] 0).map
      (fun ps => ps.lookup "working-hours-type") = .ok none :=
  ⟨(claim_C4 [("omfattning", "alla"), ("publicerad", "alla")] 0
      (by decide)).1,
   (claim_C4 [("omfattning", "alla"), ("publicerad", "alla")] 0
      (by decide)).2.2.2.1 "alla" rfl (by decide) (by decide)⟩

/-- Witness for claim C5 at a run whose history write fails. -/
theorem claim_C5_witness :
    (JobFinderPro.search_worker "dev" [] [] 0
        { saveResult := .error "db down", apiResult := .ok [] }
        { all_jobs := [], searchEnabled := false }).1
      = [Event.historyWrite, Event.displayError "db down",
         Event.enableSearchButton] :=
  ((claim_C5 "dev" [] [] 0
      { saveResult := .error "db down", apiResult := .ok [] }
      { all_jobs := [], searchEnabled := false }).2 "db down" rfl).1

/-- Witness for claim C6 at a run whose history write fails while a job
list is held. -/
theorem claim_C6_witness :
    (JobFinderPro.search_worker "dev" [] [] 0
        { saveResult := .error "db down", apiResult := .ok [] }
        { all_jobs := [], searchEnabled := false }).2.all_jobs = [] ∧
    (JobFinderPro.search_worker "dev" [] [] 0
        { saveResult := .error "db down", apiResult := .ok [] }
        { all_jobs := [], searchEnabled := false }).1.any isErrorEvent
      = true :=
  (claim_C6 "dev" [] [] 0
    { saveResult := .error "db down", apiResult := .ok [] }
    { all_jobs := [], searchEnabled := false }).2.2 rfl

/-- Witness for claim C7 at the empty query. -/
theorem claim_C7_witness :
    JobFinderPro.start_search { all_jobs := [], searchEnabled := true }
      "" [] [] 0 { saveResult := .ok (), apiResult := .ok [] }
      = ([], { all_jobs := [], searchEnabled := true }) :=
  claim_C7 { all_jobs := [], searchEnabled := true } "" [] [] 0
    { saveResult := .ok (), apiResult := .ok [] } (by decide)

/-- Witness for claim C8 at an empty database and an absent id. -/
theorem claim_C8_witness :
    DatabaseManager.delete_job ⟨[], []⟩ (pstr "missing") = ⟨[], []⟩ :=
  (claim_C8 ⟨[], []⟩ (pstr "missing")).1
    (fun r hr => absurd hr (List.not_mem_nil r))

/-- Witness for claim C9 at a concrete day index and environment. -/
theorem claim_C9_witness :
    JobAPIClient.search "developer" [] [] none 0
      = .ok { url := Config.API_BASE_URL,
              params := [("q", "developer"), ("limit", "100")] } :=
  (claim_C9 0 { saveResult := .ok (), apiResult := .ok [] }
    { all_jobs := [], searchEnabled := true }).1
